import Mathlib

/-
Verification of the incident-reporting core (src/app.py): the role-based
authorization gates, the credential lifecycle (login, forced password
change, password-reset tokens) and the incident query engine are embedded
shallowly below.  Database rows become Lean structures, SQLAlchemy queries
become list operations, and each Flask view function becomes a pure
function from an explicit store to a result and an updated store.
-/

namespace IncidentApp

/-- Model of werkzeug's `generate_password_hash`: the only property of the
salted hash the application relies on is that `check_password_hash`
accepts exactly the password that was hashed, so the hash is modelled as
a tagged copy of the password. -/
def generate_password_hash (p : String) : String := "pbkdf2-sha256$" ++ p

/-- Model of werkzeug's `check_password_hash h p`: true iff `p` is the
password whose hash is `h`. -/
def check_password_hash (h p : String) : Bool := h == generate_password_hash p

/-- Python `str.strip()` on the character list: drop leading and trailing
whitespace. -/
def stripChars (l : List Char) : List Char :=
  ((l.dropWhile Char.isWhitespace).reverse.dropWhile Char.isWhitespace).reverse

/-- Python `str.strip()`. -/
def pyStrip (s : String) : String := ⟨stripChars s.data⟩

/-- Python `str.lower()` seen as a character list. -/
def lowerData (s : String) : List Char := s.data.map Char.toLower

/-- True when `need` is a leading segment of `hay`. -/
def matchesAt : List Char → List Char → Bool
  | [], _ => true
  | _ :: _, [] => false
  | c :: cs, d :: ds => c == d && matchesAt cs ds

/-- True when `need` occurs contiguously in `hay`. -/
def hasSubList (need : List Char) : List Char → Bool
  | [] => matchesAt need []
  | c :: t => matchesAt need (c :: t) || hasSubList need t

/-- SQL `column ILIKE '%search%'` on a nullable column: a case-insensitive
substring match; a NULL column never matches. -/
def ilikeContains (field : Option String) (search : String) : Bool :=
  match field with
  | none => false
  | some s => hasSubList (lowerData search) (lowerData s)

/-- A Python `datetime` value as stored in the `DateTime` columns. -/
structure DateTime where
  year : Nat
  month : Nat
  day : Nat
  hour : Nat
  minute : Nat
  second : Nat
deriving DecidableEq

/-- Lexicographic order on datetimes, the comparison SQL applies to
`DateTime` columns. -/
def DateTime.le (a b : DateTime) : Bool :=
  if a.year ≠ b.year then decide (a.year < b.year)
  else if a.month ≠ b.month then decide (a.month < b.month)
  else if a.day ≠ b.day then decide (a.day < b.day)
  else if a.hour ≠ b.hour then decide (a.hour < b.hour)
  else if a.minute ≠ b.minute then decide (a.minute < b.minute)
  else decide (a.second ≤ b.second)

/-- Number of days in a month, with Gregorian leap years, as enforced by
`datetime.strptime`. -/
def daysInMonth (y m : Nat) : Nat :=
  if m = 2 then
    if y % 4 = 0 ∧ (y % 100 ≠ 0 ∨ y % 400 = 0) then 29 else 28
  else if m = 4 ∨ m = 6 ∨ m = 9 ∨ m = 11 then 30
  else 31

/-- Parse a non-empty all-digit character list as a natural number. -/
def digitsToNat? (l : List Char) : Option Nat :=
  if l ≠ [] ∧ l.all Char.isDigit then
    some (l.foldl (fun acc c => acc * 10 + (c.toNat - 48)) 0)
  else none

/-- Split a character list on the dash character. -/
def splitOnDash : List Char → List (List Char)
  | [] => [[]]
  | c :: t =>
    if c == '-' then [] :: splitOnDash t
    else match splitOnDash t with
      | [] => [[c]]
      | h :: r => (c :: h) :: r

/-- Model of `datetime.strptime(s, "%Y-%m-%d")`: three dash-separated
digit groups (year up to four digits, month and day up to two), a month
in 1..12 and a day valid for that month; `none` models the `ValueError`
raised on any other input. -/
def strptimeYMD (s : String) : Option DateTime :=
  match splitOnDash s.data with
  | [ys, ms, ds] =>
    if ys.length = 0 ∨ 4 < ys.length ∨ ms.length = 0 ∨ 2 < ms.length ∨
        ds.length = 0 ∨ 2 < ds.length then none
    else
      match digitsToNat? ys, digitsToNat? ms, digitsToNat? ds with
      | some y, some m, some d =>
        if 1 ≤ m ∧ m ≤ 12 ∧ 1 ≤ d ∧ d ≤ daysInMonth y m then
          some ⟨y, m, d, 0, 0, 0⟩
        else none
      | _, _, _ => none
  | _ => none

/-- A row of the `User` model (src/app.py lines 89-97). -/
structure User where
  id : Nat
  username : String
  email : Option String
  password_hash : String
  is_active : Bool
  must_change_password : Bool
  role : String
deriving DecidableEq

/-- Method `User.check_password` (src/app.py line 102). -/
def User.check_password (u : User) (password : String) : Bool :=
  check_password_hash u.password_hash password

/-- Method `User.is_master_admin` (src/app.py line 105). -/
def User.is_master_admin (u : User) : Bool := u.role == "master_admin"

/-- Method `User.is_incident_manager` (src/app.py line 108). -/
def User.is_incident_manager (u : User) : Bool := u.role == "incident_manager"

/-- Method `User.can_manage_users` (src/app.py line 111). -/
def User.can_manage_users (u : User) : Bool := u.is_master_admin

/-- Method `User.can_manage_email_config` (src/app.py line 114). -/
def User.can_manage_email_config (u : User) : Bool := u.is_master_admin

/-- Method `User.can_view_dashboard` (src/app.py line 117). -/
def User.can_view_dashboard (u : User) : Bool :=
  u.is_master_admin || u.is_incident_manager

/-- Method `User.can_manage_incidents` (src/app.py line 120). -/
def User.can_manage_incidents (u : User) : Bool :=
  u.is_master_admin || u.is_incident_manager

/-- The `master_admin_required` decorator (src/app.py lines 55-64): the
request proceeds iff the session holds an authenticated user whose
`can_manage_users` is true; `none` models an unauthenticated session. -/
def master_admin_required (cu : Option User) : Bool :=
  match cu with
  | none => false
  | some u => u.can_manage_users

/-- The `incident_manager_required` decorator (src/app.py lines 66-75):
the request proceeds iff the session holds an authenticated user whose
`can_manage_incidents` is true. -/
def incident_manager_required (cu : Option User) : Bool :=
  match cu with
  | none => false
  | some u => u.can_manage_incidents

/-- The `email_config_required` decorator (src/app.py lines 77-86). -/
def email_config_required (cu : Option User) : Bool :=
  match cu with
  | none => false
  | some u => u.can_manage_email_config

/-- A row of the `PasswordResetToken` model (src/app.py lines 126-132);
timestamps are seconds on a global clock. -/
structure PasswordResetToken where
  id : Nat
  user_id : Nat
  token : String
  expires_at : Nat
  used : Bool
deriving DecidableEq

/-- Method `PasswordResetToken.is_valid` (src/app.py lines 134-135): unused and
strictly before expiry. -/
def PasswordResetToken.is_valid (t : PasswordResetToken) (now : Nat) : Bool :=
  !t.used && decide (now < t.expires_at)

/-- A row of the `Incident` model (src/app.py lines 140-165). -/
structure Incident where
  id : Nat
  reporter_name : String
  reporter_job_title : Option String
  reporter_email : Option String
  reporter_phone : Option String
  incident_datetime : DateTime
  incident_type : String
  location : String
  description : String
  incident_description : String
  persons_involved : String
  threats_weapons : Option String
  medical_treatment : Option String
  law_enforcement : Option String
  law_enforcement_contacted : Option String
  police_report_id : Option String
  security_intervention : Option String
  incident_response : Option String
  contributing_factors : Option String
  corrective_actions : Option String
  submitted_at : DateTime
deriving DecidableEq

/-- The OR of ILIKE filters `get_incidents` applies when `search` is
non-empty (src/app.py lines 866-884).  The columns `reporter_phone`,
`law_enforcement_contacted` and `police_report_id` are not among the
fourteen searched columns. -/
def searchFilter (search : String) (i : Incident) : Bool :=
  ilikeContains (some i.reporter_name) search ||
  ilikeContains i.reporter_job_title search ||
  ilikeContains i.reporter_email search ||
  ilikeContains (some i.incident_type) search ||
  ilikeContains (some i.location) search ||
  ilikeContains (some i.incident_description) search ||
  ilikeContains (some i.persons_involved) search ||
  ilikeContains i.threats_weapons search ||
  ilikeContains i.medical_treatment search ||
  ilikeContains i.law_enforcement search ||
  ilikeContains i.security_intervention search ||
  ilikeContains i.incident_response search ||
  ilikeContains i.contributing_factors search ||
  ilikeContains i.corrective_actions search

/-- The column attributes of the `Incident` model, for which
`hasattr(Incident, sort_by)` holds and `order_by` succeeds. -/
def incidentColumns : List String :=
  ["id", "reporter_name", "reporter_job_title", "reporter_email", "reporter_phone",
   "incident_datetime", "incident_type", "location", "description",
   "incident_description", "persons_involved", "threats_weapons",
   "medical_treatment", "law_enforcement", "law_enforcement_contacted",
   "police_report_id", "security_intervention", "incident_response",
   "contributing_factors", "corrective_actions", "submitted_at"]

/-- Non-column attributes of the `Incident` model: `hasattr` is true for
them but calling `.desc()`/`.asc()` on them raises, which the generic
handler turns into the 500 response of `get_incidents`. -/
def incidentNonColumnAttrs : List String := ["to_dict", "query", "metadata"]

/-- Byte-wise order on character lists, modelling SQL string comparison. -/
def charListLe : List Char → List Char → Bool
  | [], _ => true
  | _ :: _, [] => false
  | a :: as, b :: bs =>
    if a.toNat < b.toNat then true
    else if b.toNat < a.toNat then false
    else charListLe as bs

/-- String comparison used when sorting string columns. -/
def strLe (a b : String) : Bool := charListLe a.data b.data

/-- Comparison on nullable string columns; NULL orders first, as SQLite
places NULLs first in ascending order. -/
def optStrLe : Option String → Option String → Bool
  | none, _ => true
  | some _, none => false
  | some a, some b => strLe a b

/-- Ascending comparison for `ORDER BY column` on each `Incident` column. -/
def fieldLe (col : String) (a b : Incident) : Bool :=
  if col == "id" then decide (a.id ≤ b.id)
  else if col == "reporter_name" then strLe a.reporter_name b.reporter_name
  else if col == "reporter_job_title" then optStrLe a.reporter_job_title b.reporter_job_title
  else if col == "reporter_email" then optStrLe a.reporter_email b.reporter_email
  else if col == "reporter_phone" then optStrLe a.reporter_phone b.reporter_phone
  else if col == "incident_datetime" then DateTime.le a.incident_datetime b.incident_datetime
  else if col == "incident_type" then strLe a.incident_type b.incident_type
  else if col == "location" then strLe a.location b.location
  else if col == "description" then strLe a.description b.description
  else if col == "incident_description" then strLe a.incident_description b.incident_description
  else if col == "persons_involved" then strLe a.persons_involved b.persons_involved
  else if col == "threats_weapons" then optStrLe a.threats_weapons b.threats_weapons
  else if col == "medical_treatment" then optStrLe a.medical_treatment b.medical_treatment
  else if col == "law_enforcement" then optStrLe a.law_enforcement b.law_enforcement
  else if col == "law_enforcement_contacted" then optStrLe a.law_enforcement_contacted b.law_enforcement_contacted
  else if col == "police_report_id" then optStrLe a.police_report_id b.police_report_id
  else if col == "security_intervention" then optStrLe a.security_intervention b.security_intervention
  else if col == "incident_response" then optStrLe a.incident_response b.incident_response
  else if col == "contributing_factors" then optStrLe a.contributing_factors b.contributing_factors
  else if col == "corrective_actions" then optStrLe a.corrective_actions b.corrective_actions
  else DateTime.le a.submitted_at b.submitted_at

/-- Clause `ORDER BY sort_by ASC/DESC` (src/app.py lines 903-909), modelled with
a stable sort on the row comparison of the named column. -/
def sortIncidents (sort_by sort_order : String) (l : List Incident) : List Incident :=
  if sort_order == "desc" then
    l.insertionSort (fun a b => fieldLe sort_by b a = true)
  else
    l.insertionSort (fun a b => fieldLe sort_by a b = true)

/-- The search filter step of `get_incidents` (src/app.py lines 856,
866-884): applied only when the stripped search text is non-empty. -/
def applySearch (search : String) (l : List Incident) : List Incident :=
  if pyStrip search = "" then l
  else l.filter (searchFilter (pyStrip search))

/-- The start-date filter step of `get_incidents` (src/app.py lines
887-892): keep records with `incident_datetime >= start of that day`;
a malformed date only logs a warning and applies no filter. -/
def applyStartDate (sd : String) (l : List Incident) : List Incident :=
  if pyStrip sd = "" then l
  else
    match strptimeYMD (pyStrip sd) with
    | some d => l.filter (fun i => DateTime.le d i.incident_datetime)
    | none => l

/-- The end-date filter step of `get_incidents` (src/app.py lines
894-901): keep records with `incident_datetime <= 23:59:59 of that day`;
a malformed date only logs a warning and applies no filter. -/
def applyEndDate (ed : String) (l : List Incident) : List Incident :=
  if pyStrip ed = "" then l
  else
    match strptimeYMD (pyStrip ed) with
    | some d =>
      l.filter (fun i =>
        DateTime.le i.incident_datetime { d with hour := 23, minute := 59, second := 59 })
    | none => l

/-- The filter pipeline of `get_incidents`, in source order: search, then
start date, then end date. -/
def applyFilters (incidents : List Incident) (search sd ed : String) : List Incident :=
  applyEndDate ed (applyStartDate sd (applySearch search incidents))

/-- View `get_incidents` (src/app.py lines 850-922): filters then sorting; a
`sort_by` naming a column sorts by it, a non-column attribute raises and
yields the 500 error response, and any other value is silently ignored. -/
def get_incidents (incidents : List Incident) (search sd ed sort_by sort_order : String) :
    Except String (List Incident) :=
  let q := applyFilters incidents search sd ed
  if incidentColumns.contains sort_by then
    Except.ok (sortIncidents sort_by sort_order q)
  else if incidentNonColumnAttrs.contains sort_by then
    Except.error "Error retrieving incidents"
  else Except.ok q

/-- The mutable store: the `user` and `password_reset_token` tables. -/
structure AppState where
  users : List User
  tokens : List PasswordResetToken
deriving DecidableEq

/-- Helper `generate_password_reset_token` (src/app.py lines 439-461): build the
new token with a one-hour expiry, mark every unused token of the same
user as used, insert the new token, all committed as one transaction.
The fresh random value and primary key are passed in as `tokenValue` and
`newId`. -/
def generate_password_reset_token (s : AppState) (user : User) (tokenValue : String)
    (newId now : Nat) : String × AppState :=
  (tokenValue,
   { s with tokens :=
      s.tokens.map (fun t =>
        if t.user_id == user.id && !t.used then { t with used := true } else t) ++
      [{ id := newId, user_id := user.id, token := tokenValue,
         expires_at := now + 3600, used := false }] })

/-- Outcome of a password-reset redemption. -/
inductive ResetOutcome where
  | invalidToken
  | validationFailed (message : String)
  | serverError
  | success
deriving DecidableEq

/-- The POST branch of `reset_password` (src/app.py lines 794-834): look
up the token by value; fail if missing or not `is_valid`; validate the
new password (non-empty, confirmed, at least 6 characters); on success
set the owning account's password and mark the token used in one
transaction.  `serverError` models the 500 raised when the owning user
row is missing, which rolls back and leaves the store unchanged. -/
def reset_password (s : AppState) (tokenValue : String) (now : Nat)
    (new_password confirm_password : String) : ResetOutcome × AppState :=
  match s.tokens.find? (fun t => t.token == tokenValue) with
  | none => (ResetOutcome.invalidToken, s)
  | some rt =>
    if ¬ (rt.is_valid now = true) then (ResetOutcome.invalidToken, s)
    else
      match s.users.find? (fun u => u.id == rt.user_id) with
      | none => (ResetOutcome.serverError, s)
      | some user =>
        if pyStrip new_password = "" then
          (ResetOutcome.validationFailed "Please enter a new password", s)
        else if pyStrip new_password ≠ pyStrip confirm_password then
          (ResetOutcome.validationFailed "Passwords do not match", s)
        else if (pyStrip new_password).length < 6 then
          (ResetOutcome.validationFailed "Password must be at least 6 characters long", s)
        else
          (ResetOutcome.success,
           { users := s.users.map (fun u =>
               if u.id == user.id then
                 { u with password_hash := generate_password_hash (pyStrip new_password) }
               else u),
             tokens := s.tokens.map (fun t =>
               if t.id == rt.id then { t with used := true } else t) })

/-- The flash message the POST branch of `forgot_password` surfaces to
the caller (src/app.py lines 762-792).  Whether the reset e-mail could
be dispatched is the boolean `emailSendOk`; the token issuance performed
in the success branch is `generate_password_reset_token` and does not
change the message. -/
def forgot_password (users : List User) (username : String) (emailSendOk : Bool) : String :=
  if pyStrip username = "" then "Please enter your username"
  else
    match users.find? (fun u => u.username == pyStrip username && u.is_active) with
    | some user =>
      if user.email.isSome then
        if emailSendOk then
          "Password reset instructions have been sent to your email address."
        else
          "Failed to send password reset email. Please contact your administrator."
      else
        "If an account with that username exists and has an email address, password reset instructions have been sent."
    | none =>
      "If an account with that username exists and has an email address, password reset instructions have been sent."

/-- Outcome of a login attempt. -/
inductive LoginResult where
  | success (must_change : Bool)
  | failure
deriving DecidableEq

/-- The POST branch of `admin_login` (src/app.py lines 711-733): look up
an active user by username and verify the password; on success the
`must_change_password` flag selects the forced-change redirect. -/
def admin_login (users : List User) (username password : String) : LoginResult :=
  match users.find? (fun u => u.username == username && u.is_active) with
  | some user =>
    if user.check_password password then LoginResult.success user.must_change_password
    else LoginResult.failure
  | none => LoginResult.failure

/-- Outcome of the administrative user-management operations; the
self-modification denials of the three routes (flash message or 400
response) are the `SelfModificationForbidden` outcome of the spec. -/
inductive AdminResult where
  | forbidden
  | notFound
  | selfModificationForbidden
  | validationFailed (message : String)
  | ok
deriving DecidableEq

/-- View `toggle_user` (src/app.py lines 1085-1109): master-admin gate, target
lookup, self-check, then flip `is_active`. -/
def toggle_user (users : List User) (actor : User) (target_id : Nat) :
    AdminResult × List User :=
  if ¬ (master_admin_required (some actor) = true) then (AdminResult.forbidden, users)
  else
    match users.find? (fun u => u.id == target_id) with
    | none => (AdminResult.notFound, users)
    | some target =>
      if target.id == actor.id then (AdminResult.selfModificationForbidden, users)
      else
        (AdminResult.ok, users.map (fun v =>
          if v.id == target.id then { v with is_active := !v.is_active } else v))

/-- View `change_user_role` (src/app.py lines 1142-1175): master-admin gate,
target lookup, self-check, role validation, then the role update. -/
def change_user_role (users : List User) (actor : User) (target_id : Nat)
    (new_role : String) : AdminResult × List User :=
  if ¬ (master_admin_required (some actor) = true) then (AdminResult.forbidden, users)
  else
    match users.find? (fun u => u.id == target_id) with
    | none => (AdminResult.notFound, users)
    | some target =>
      if target.id == actor.id then (AdminResult.selfModificationForbidden, users)
      else
        let nr := pyStrip new_role
        if nr = "" then (AdminResult.validationFailed "New role is required", users)
        else if nr ≠ "master_admin" ∧ nr ≠ "incident_manager" then
          (AdminResult.validationFailed "Invalid role selected", users)
        else if nr = target.role then
          (AdminResult.validationFailed "User already has this role", users)
        else
          (AdminResult.ok, users.map (fun v =>
            if v.id == target.id then { v with role := nr } else v))

/-- View `delete_user` (src/app.py lines 1177-1200): master-admin gate, target
lookup, self-check, then row deletion. -/
def delete_user (users : List User) (actor : User) (target_id : Nat) :
    AdminResult × List User :=
  if ¬ (master_admin_required (some actor) = true) then (AdminResult.forbidden, users)
  else
    match users.find? (fun u => u.id == target_id) with
    | none => (AdminResult.notFound, users)
    | some target =>
      if target.id == actor.id then (AdminResult.selfModificationForbidden, users)
      else (AdminResult.ok, users.filter (fun v => ¬ (v.id == target.id) = true))

/-- Written from the specification wording of the search contract: a
case-insensitive match across every free-text field, including the
reporter phone and the police report id.  Stated only to be compared
with the `searchFilter` the code actually applies. -/
def specFreeTextMatch (search : String) (i : Incident) : Bool :=
  ilikeContains (some i.reporter_name) search ||
  ilikeContains i.reporter_job_title search ||
  ilikeContains i.reporter_email search ||
  ilikeContains i.reporter_phone search ||
  ilikeContains (some i.location) search ||
  ilikeContains (some i.incident_description) search ||
  ilikeContains (some i.persons_involved) search ||
  ilikeContains i.threats_weapons search ||
  ilikeContains i.medical_treatment search ||
  ilikeContains i.law_enforcement search ||
  ilikeContains i.law_enforcement_contacted search ||
  ilikeContains i.police_report_id search ||
  ilikeContains i.security_intervention search ||
  ilikeContains i.incident_response search ||
  ilikeContains i.contributing_factors search ||
  ilikeContains i.corrective_actions search

/-- A concrete datetime used by the concrete stores below. -/
def sampleDT : DateTime := ⟨2024, 1, 5, 12, 0, 0⟩

/-- A stored incident whose only occurrence of the digits 555 is in the
reporter phone column. -/
def phoneIncident : Incident :=
  { id := 1, reporter_name := "Anonymous", reporter_job_title := none,
    reporter_email := none, reporter_phone := some "555-0100",
    incident_datetime := sampleDT,
    incident_type := "Type 3 – Worker-on-Worker", location := "Warehouse B",
    description := "slip and fall", incident_description := "slip and fall",
    persons_involved := "J. Doe", threats_weapons := none,
    medical_treatment := none, law_enforcement := none,
    law_enforcement_contacted := none, police_report_id := none,
    security_intervention := none, incident_response := none,
    contributing_factors := none, corrective_actions := none,
    submitted_at := sampleDT }

/-- A freshly created incident manager still carrying the temporary
password flag. -/
def forcedManager : User :=
  { id := 2, username := "jsmith", email := some "jsmith@example.com",
    password_hash := generate_password_hash "Temp#Pass12", is_active := true,
    must_change_password := true, role := "incident_manager" }

/-- A master admin still carrying the temporary password flag. -/
def forcedAdmin : User :=
  { id := 1, username := "admin", email := some "admin@archnexus.com",
    password_hash := generate_password_hash "admin123", is_active := true,
    must_change_password := true, role := "master_admin" }

/-- An ordinary active incident manager with a contact address. -/
def aliceUser : User :=
  { id := 3, username := "alice", email := some "alice@example.com",
    password_hash := generate_password_hash "secret7", is_active := true,
    must_change_password := false, role := "incident_manager" }

/-- An active account without a contact address. -/
def noEmailUser : User :=
  { id := 4, username := "bob", email := none,
    password_hash := generate_password_hash "secret8", is_active := true,
    must_change_password := false, role := "incident_manager" }

/-- A master admin acting as the session user in concrete runs. -/
def adminUser : User :=
  { id := 5, username := "root", email := some "root@archnexus.com",
    password_hash := generate_password_hash "rootpass", is_active := true,
    must_change_password := false, role := "master_admin" }

/-- A concrete unused token owned by `aliceUser`, expiring at time 100. -/
def aliceToken : PasswordResetToken :=
  { id := 1, user_id := 3, token := "tok123", expires_at := 100, used := false }

/-- A concrete store holding `aliceUser` and her unused token. -/
def sampleState : AppState := { users := [aliceUser], tokens := [aliceToken] }

/-- Sorting never adds or removes records: membership in the sorted list
is membership in the input. -/
theorem mem_sortIncidents (sort_by sort_order : String) (l : List Incident) (r : Incident) :
    r ∈ sortIncidents sort_by sort_order l ↔ r ∈ l := by
  unfold sortIncidents
  split
  · exact List.Perm.mem_iff (List.perm_insertionSort _ l)
  · exact List.Perm.mem_iff (List.perm_insertionSort _ l)

/-- Stripping the empty string yields the empty string. -/
theorem pyStrip_empty : pyStrip "" = "" := by decide

/-- C1: the claim says an account with forced-password-change = true is
denied every capability, and in particular a query under such a session
fails with Forbidden.  The code contradicts this: the decorators test
only authentication and role, so a forced-change incident manager passes
the incident-manager gate and a forced-change master admin holds all
four capabilities. -/
theorem forced_change_account_retains_capabilities :
    forcedManager.must_change_password = true ∧
    incident_manager_required (some forcedManager) = true ∧
    forcedAdmin.must_change_password = true ∧
    forcedAdmin.can_manage_users = true ∧
    forcedAdmin.can_manage_email_config = true ∧
    forcedAdmin.can_manage_incidents = true ∧
    forcedAdmin.can_view_dashboard = true := by
  decide

/-- C2 counterexample: a recovery request naming an existing active
account with a contact address is answered with a different message than
the same request when the account does not exist, so the two runs are
distinguishable and the claim fails. -/
theorem forgot_password_reveals_account_existence :
    forgot_password [aliceUser] "alice" true ≠ forgot_password [] "alice" true := by
  decide

/-- C2 amended: only within the unavailable cases is the response
uniform: whenever no active account with the requested username has a
contact address on file, the caller receives the one generic
non-committal message, so NoContactAddress is never surfaced distinctly
from a missing account. -/
theorem forgot_password_generic_when_account_unavailable
    (users : List User) (username : String) (emailSendOk : Bool)
    (hne : pyStrip username ≠ "")
    (hnone : ∀ u ∈ users, u.username = pyStrip username → u.is_active = true → u.email = none) :
    forgot_password users username emailSendOk =
      "If an account with that username exists and has an email address, password reset instructions have been sent." := by
  unfold forgot_password
  rw [if_neg hne]
  cases hf : users.find? (fun u => u.username == pyStrip username && u.is_active) with
  | none => rfl
  | some u =>
    have hp := List.find?_some hf
    have hm := List.mem_of_find?_eq_some hf
    simp only [Bool.and_eq_true, beq_iff_eq] at hp
    have hemail : u.email = none := hnone u hm hp.1 hp.2
    simp [hemail]

/-- C2 amended, witness: the generic message for a concrete store whose
only matching account has no contact address. -/
theorem forgot_password_generic_witness :
    pyStrip "bob" ≠ "" ∧
    (∀ u ∈ [noEmailUser], u.username = pyStrip "bob" → u.is_active = true → u.email = none) ∧
    forgot_password [noEmailUser] "bob" true =
      "If an account with that username exists and has an email address, password reset instructions have been sent." :=
  ⟨by decide, by decide,
    forgot_password_generic_when_account_unavailable [noEmailUser] "bob" true
      (by decide) (by decide)⟩

/-- C3 counterexample: a query whose sort field is not in the sortable
set is not rejected: with the unrecognized value `bogus` the query
succeeds and returns the stored records, so the claim fails. -/
theorem unrecognized_sort_field_not_rejected :
    incidentColumns.contains "bogus" = false ∧
    get_incidents [phoneIncident] "" "" "" "bogus" "asc" = Except.ok [phoneIncident] :=
  ⟨by decide, rfl⟩

/-- C3 amended: a sort field that is no attribute of the Incident model
is silently ignored rather than rejected: the query succeeds and returns
the filtered records in stored order, and the unrecognized value is
never used in the query expression. -/
theorem unrecognized_sort_field_silently_ignored
    (incidents : List Incident) (search sd ed sort_by sort_order : String)
    (h1 : incidentColumns.contains sort_by = false)
    (h2 : incidentNonColumnAttrs.contains sort_by = false) :
    get_incidents incidents search sd ed sort_by sort_order =
      Except.ok (applyFilters incidents search sd ed) := by
  have h1m : sort_by ∉ incidentColumns := by simpa using h1
  have h2m : sort_by ∉ incidentNonColumnAttrs := by simpa using h2
  unfold get_incidents
  simp [h1m, h2m]

/-- C3 amended, witness: a concrete query with an unrecognized sort
field succeeds and returns the stored record. -/
theorem unrecognized_sort_field_witness :
    incidentColumns.contains "nosuchfield" = false ∧
    incidentNonColumnAttrs.contains "nosuchfield" = false ∧
    get_incidents [phoneIncident] "fall" "" "" "nosuchfield" "asc" =
      Except.ok (applyFilters [phoneIncident] "fall" "" "") :=
  ⟨by decide, by decide,
    unrecognized_sort_field_silently_ignored [phoneIncident] "fall" "" "" "nosuchfield" "asc"
      (by decide) (by decide)⟩

/-- C4 counterexample: a stored record whose reporter phone contains the
search text in no other field satisfies the free-text predicate of the
claim, yet the query omits it, so the claim fails. -/
theorem phone_only_match_omitted_from_search :
    specFreeTextMatch "555" phoneIncident = true ∧
    get_incidents [phoneIncident] "555" "" "" "submitted_at" "desc" = Except.ok [] :=
  ⟨by decide, rfl⟩

/-- C4 amended: with a non-empty search text the query returns exactly
the records in which one of the fourteen searched columns (reporter
name, job title and email, incident type, location, description,
persons involved, threats and weapons, medical treatment, the combined
law-enforcement text, security intervention, incident response,
contributing factors, corrective actions) contains the text
case-insensitively; the reporter phone, the structured
law-enforcement-contacted flag and the police report id are not
searched. -/
theorem search_returns_exactly_matching_records
    (incidents : List Incident) (search sort_by sort_order : String)
    (hs : pyStrip search ≠ "")
    (hsb : incidentNonColumnAttrs.contains sort_by = false)
    (r : Incident) :
    ∃ l, get_incidents incidents search "" "" sort_by sort_order = Except.ok l ∧
      (r ∈ l ↔ r ∈ incidents ∧ searchFilter (pyStrip search) r = true) := by
  have hfilters : applyFilters incidents search "" "" =
      incidents.filter (searchFilter (pyStrip search)) := by
    unfold applyFilters applyEndDate applyStartDate applySearch
    rw [if_neg hs, if_pos pyStrip_empty, if_pos pyStrip_empty]
  have hsbm : sort_by ∉ incidentNonColumnAttrs := by simpa using hsb
  unfold get_incidents
  by_cases hcol : sort_by ∈ incidentColumns
  · refine ⟨sortIncidents sort_by sort_order (applyFilters incidents search "" ""), by simp [hcol], ?_⟩
    rw [mem_sortIncidents, hfilters, List.mem_filter]
  · refine ⟨applyFilters incidents search "" "", by simp [hcol, hsbm], ?_⟩
    rw [hfilters, List.mem_filter]

/-- C4 amended, witness: the concrete phone-only record is in the store
but not in the result, matching the searched-column predicate being
false. -/
theorem search_returns_exactly_matching_witness :
    pyStrip "555" ≠ "" ∧
    incidentNonColumnAttrs.contains "submitted_at" = false ∧
    (∃ l, get_incidents [phoneIncident] "555" "" "" "submitted_at" "desc" = Except.ok l ∧
      (phoneIncident ∈ l ↔ phoneIncident ∈ [phoneIncident] ∧
        searchFilter (pyStrip "555") phoneIncident = true)) :=
  ⟨by decide, by decide,
    search_returns_exactly_matching_records [phoneIncident] "555" "submitted_at" "desc"
      (by decide) (by decide) phoneIncident⟩

/-- Skipping the start-date filter: a date whose stripped text does not
parse applies no filter. -/
theorem applyStartDate_of_parse_none (sd : String) (l : List Incident)
    (h : strptimeYMD (pyStrip sd) = none) : applyStartDate sd l = l := by
  unfold applyStartDate
  split
  · rfl
  · rw [h]

/-- Skipping the end-date filter: a date whose stripped text does not
parse applies no filter. -/
theorem applyEndDate_of_parse_none (ed : String) (l : List Incident)
    (h : strptimeYMD (pyStrip ed) = none) : applyEndDate ed l = l := by
  unfold applyEndDate
  split
  · rfl
  · rw [h]

/-- C10: a start or end date bound that is present but not in YYYY-MM-DD
format neither fails the query nor filters anything: the result is the
same as if that bound had been absent. -/
theorem malformed_date_bound_ignored
    (incidents : List Incident) (search sd ed sort_by sort_order : String) :
    (strptimeYMD (pyStrip sd) = none →
      get_incidents incidents search sd ed sort_by sort_order =
        get_incidents incidents search "" ed sort_by sort_order) ∧
    (strptimeYMD (pyStrip ed) = none →
      get_incidents incidents search sd ed sort_by sort_order =
        get_incidents incidents search sd "" sort_by sort_order) := by
  constructor
  · intro h
    have : applyFilters incidents search sd ed = applyFilters incidents search "" ed := by
      unfold applyFilters
      rw [applyStartDate_of_parse_none sd _ h,
        applyStartDate_of_parse_none "" _ (by decide)]
    unfold get_incidents
    rw [this]
  · intro h
    have : applyFilters incidents search sd ed = applyFilters incidents search sd "" := by
      unfold applyFilters
      rw [applyEndDate_of_parse_none ed _ h,
        applyEndDate_of_parse_none "" _ (by decide)]
    unfold get_incidents
    rw [this]

/-- C10, witness: a concrete malformed end-of-range month is ignored. -/
theorem malformed_date_bound_witness :
    strptimeYMD (pyStrip "2024-13-05") = none ∧
    get_incidents [phoneIncident] "" "2024-13-05" "" "submitted_at" "desc" =
      get_incidents [phoneIncident] "" "" "" "submitted_at" "desc" :=
  ⟨by decide,
    (malformed_date_bound_ignored [phoneIncident] "" "2024-13-05" "" "submitted_at" "desc").1
      (by decide)⟩

/-- C8: authentication succeeds exactly when the account is active and
the supplied password verifies against the stored hash; in particular a
deactivated account never logs in, with any password. -/
theorem authenticate_iff_active_and_password
    (users : List User) (u : User) (password : String)
    (hmem : u ∈ users)
    (huniq : ∀ v ∈ users, v.username = u.username → v = u) :
    (admin_login users u.username password ≠ LoginResult.failure ↔
      u.is_active = true ∧ u.check_password password = true) := by
  unfold admin_login
  cases hf : users.find? (fun v => v.username == u.username && v.is_active) with
  | none =>
    have hall := List.find?_eq_none.mp hf u hmem
    simp only [Bool.and_eq_true, beq_iff_eq, not_and] at hall
    have hact : u.is_active = false := by
      cases hia : u.is_active with
      | false => rfl
      | true => exact absurd hia (hall trivial)
    simp [hact]
  | some v =>
    have hp := List.find?_some hf
    have hm := List.mem_of_find?_eq_some hf
    simp only [Bool.and_eq_true, beq_iff_eq] at hp
    have hv : v = u := huniq v hm hp.1
    subst hv
    by_cases hc : v.check_password password = true
    · simp [hc, hp.2]
    · simp [hc, hp.2]

/-- C8, witness: the concrete active account logs in with its password. -/
theorem authenticate_iff_witness :
    aliceUser ∈ [aliceUser] ∧
    (∀ v ∈ [aliceUser], v.username = aliceUser.username → v = aliceUser) ∧
    (admin_login [aliceUser] aliceUser.username "secret7" ≠ LoginResult.failure ↔
      aliceUser.is_active = true ∧ aliceUser.check_password "secret7" = true) :=
  ⟨by decide, by decide,
    authenticate_iff_active_and_password [aliceUser] aliceUser "secret7"
      (by decide) (by decide)⟩

/-- Looking a user up by its own primary key succeeds and returns a row
with that key. -/
theorem find_by_id (users : List User) (actor : User) (hmem : actor ∈ users) :
    ∃ t, users.find? (fun v => v.id == actor.id) = some t ∧ t.id = actor.id := by
  have hsome : (users.find? (fun v => v.id == actor.id)).isSome :=
    List.find?_isSome.mpr ⟨actor, hmem, by simp⟩
  obtain ⟨t, ht⟩ := Option.isSome_iff_exists.mp hsome
  exact ⟨t, ht, by simpa using List.find?_some ht⟩

/-- C9: each of the deactivate, role-change and delete operations, run
by a master admin against the acting account itself, stops at the
self-check with the SelfModificationForbidden outcome and leaves the
user table unchanged. -/
theorem self_modification_always_forbidden
    (users : List User) (actor : User) (new_role : String)
    (hrole : actor.can_manage_users = true)
    (hmem : actor ∈ users) :
    toggle_user users actor actor.id = (AdminResult.selfModificationForbidden, users) ∧
    change_user_role users actor actor.id new_role = (AdminResult.selfModificationForbidden, users) ∧
    delete_user users actor actor.id = (AdminResult.selfModificationForbidden, users) := by
  obtain ⟨t, hfind, hid⟩ := find_by_id users actor hmem
  have hgate : master_admin_required (some actor) = true := hrole
  refine ⟨?_, ?_, ?_⟩
  · unfold toggle_user
    rw [if_neg (by simp [hgate]), hfind]
    simp [hid]
  · unfold change_user_role
    rw [if_neg (by simp [hgate]), hfind]
    simp [hid]
  · unfold delete_user
    rw [if_neg (by simp [hgate]), hfind]
    simp [hid]

/-- C9, witness: the concrete master admin cannot deactivate, re-role or
delete itself. -/
theorem self_modification_witness :
    adminUser.can_manage_users = true ∧
    adminUser ∈ [adminUser, aliceUser] ∧
    (toggle_user [adminUser, aliceUser] adminUser adminUser.id =
        (AdminResult.selfModificationForbidden, [adminUser, aliceUser]) ∧
      change_user_role [adminUser, aliceUser] adminUser adminUser.id "incident_manager" =
        (AdminResult.selfModificationForbidden, [adminUser, aliceUser]) ∧
      delete_user [adminUser, aliceUser] adminUser adminUser.id =
        (AdminResult.selfModificationForbidden, [adminUser, aliceUser])) :=
  ⟨by decide, by decide,
    self_modification_always_forbidden [adminUser, aliceUser] adminUser "incident_manager"
      (by decide) (by decide)⟩

/-- C7: redemption is a single atomic transition on the store: every
failing attempt returns the store exactly as it was, and a successful
attempt returns a store in which the redeemed token is marked used and
the owning account carries the hash of the new password — there is no
reachable store with only one of the two changes. -/
theorem reset_password_atomic (s : AppState) (tv : String) (now : Nat) (np cp : String) :
    ((reset_password s tv now np cp).1 = ResetOutcome.success ∧
      ∃ rt ∈ s.tokens, rt.token = tv ∧
        (∀ t2 ∈ (reset_password s tv now np cp).2.tokens, t2.id = rt.id → t2.used = true) ∧
        (∀ u2 ∈ (reset_password s tv now np cp).2.users, u2.id = rt.user_id →
          u2.password_hash = generate_password_hash (pyStrip np))) ∨
    ((reset_password s tv now np cp).1 ≠ ResetOutcome.success ∧
      (reset_password s tv now np cp).2 = s) := by
  unfold reset_password
  split
  · exact Or.inr ⟨by simp, rfl⟩
  · rename_i rt hf
    split
    · exact Or.inr ⟨by simp, rfl⟩
    · split
      · exact Or.inr ⟨by simp, rfl⟩
      · rename_i user hu
        split
        · exact Or.inr ⟨by simp, rfl⟩
        · split
          · exact Or.inr ⟨by simp, rfl⟩
          · split
            · exact Or.inr ⟨by simp, rfl⟩
            · refine Or.inl ⟨rfl, rt, List.mem_of_find?_eq_some hf,
                by simpa using List.find?_some hf, ?_, ?_⟩
              · intro t2 ht2 hid
                rcases List.mem_map.mp ht2 with ⟨t0, ht0, rfl⟩
                by_cases hg : (t0.id == rt.id) = true
                · rw [if_pos hg]
                · rw [if_neg hg] at hid ⊢
                  exact absurd (by simp [hid]) hg
              · have husr : user.id = rt.user_id := by simpa using List.find?_some hu
                intro u2 hu2 hid2
                rcases List.mem_map.mp hu2 with ⟨u0, hu0, rfl⟩
                by_cases hg2 : (u0.id == user.id) = true
                · rw [if_pos hg2]
                · rw [if_neg hg2] at hid2 ⊢
                  exact absurd (by simp [hid2, husr]) hg2

/-- C7, witness: atomicity evaluated at a concrete valid redemption. -/
theorem reset_password_atomic_witness :
    ((reset_password sampleState "tok123" 50 "newpass99" "newpass99").1 = ResetOutcome.success ∧
      ∃ rt ∈ sampleState.tokens, rt.token = "tok123" ∧
        (∀ t2 ∈ (reset_password sampleState "tok123" 50 "newpass99" "newpass99").2.tokens,
          t2.id = rt.id → t2.used = true) ∧
        (∀ u2 ∈ (reset_password sampleState "tok123" 50 "newpass99" "newpass99").2.users,
          u2.id = rt.user_id →
          u2.password_hash = generate_password_hash (pyStrip "newpass99"))) ∨
    ((reset_password sampleState "tok123" 50 "newpass99" "newpass99").1 ≠ ResetOutcome.success ∧
      (reset_password sampleState "tok123" 50 "newpass99" "newpass99").2 = sampleState) :=
  reset_password_atomic sampleState "tok123" 50 "newpass99" "newpass99"

/-- Looking a token up by the value of a token present in a table whose
values are unique (the column carries a UNIQUE constraint) returns that
token. -/
theorem find?_token_self (l : List PasswordResetToken)
    (hnodup : (l.map PasswordResetToken.token).Nodup)
    (told : PasswordResetToken) (hmem : told ∈ l) :
    l.find? (fun t => t.token == told.token) = some told := by
  have hsome : (l.find? (fun t => t.token == told.token)).isSome :=
    List.find?_isSome.mpr ⟨told, hmem, by simp⟩
  obtain ⟨t0, ht0⟩ := Option.isSome_iff_exists.mp hsome
  have heq : t0.token = told.token := by simpa using List.find?_some ht0
  have ht : t0 = told :=
    List.inj_on_of_nodup_map hnodup (List.mem_of_find?_eq_some ht0) hmem heq
  rw [ht0, ht]

/-- A row update that does not touch the token column commutes with the
lookup by token value. -/
theorem find?_map_token_eq (l : List PasswordResetToken) (tv : String)
    (f : PasswordResetToken → PasswordResetToken) (hpres : ∀ t, (f t).token = t.token) :
    (l.map f).find? (fun t => t.token == tv) = (l.find? (fun t => t.token == tv)).map f := by
  rw [List.find?_map]
  have hc : ((fun t : PasswordResetToken => t.token == tv) ∘ f) =
      fun t => t.token == tv := by
    funext t
    simp [Function.comp, hpres t]
  rw [hc]

/-- Any redemption attempt whose token lookup returns a used token fails
with the InvalidOrExpiredToken outcome. -/
theorem reset_password_invalid_of_find_used (s : AppState) (tv : String) (now : Nat)
    (np cp : String) (t : PasswordResetToken)
    (hf : s.tokens.find? (fun t2 => t2.token == tv) = some t) (hused : t.used = true) :
    (reset_password s tv now np cp).1 = ResetOutcome.invalidToken := by
  unfold reset_password
  rw [hf]
  simp [PasswordResetToken.is_valid, hused]

/-- C5: over a store whose token values are unique and whose tokens all
have owning accounts, and with a well-formed new password, redemption
succeeds exactly when a token with the requested value exists, is
unused, and the clock is strictly before its expiry; whenever no such
valid token exists — not found, already used, or at or past expiry —
the outcome is InvalidOrExpiredToken; and after a successful redemption
every further attempt with the same value fails with
InvalidOrExpiredToken, so redemption succeeds at most once per value. -/
theorem redeem_iff_valid_and_at_most_once
    (s : AppState) (tv : String) (now : Nat) (np cp : String)
    (hnodup : (s.tokens.map PasswordResetToken.token).Nodup)
    (huser : ∀ t ∈ s.tokens, ∃ u ∈ s.users, u.id = t.user_id)
    (hpw : pyStrip np ≠ "" ∧ pyStrip np = pyStrip cp ∧ 6 ≤ (pyStrip np).length) :
    ((reset_password s tv now np cp).1 = ResetOutcome.success ↔
      ∃ rt ∈ s.tokens, rt.token = tv ∧ rt.used = false ∧ now < rt.expires_at) ∧
    ((¬ ∃ rt ∈ s.tokens, rt.token = tv ∧ rt.used = false ∧ now < rt.expires_at) →
      (reset_password s tv now np cp).1 = ResetOutcome.invalidToken) ∧
    ((reset_password s tv now np cp).1 = ResetOutcome.success →
      ∀ now2 np2 cp2,
        (reset_password (reset_password s tv now np cp).2 tv now2 np2 cp2).1 =
          ResetOutcome.invalidToken) := by
  obtain ⟨hne, hpeq, hlen⟩ := hpw
  have hlen2 : ¬ ((pyStrip np).length < 6) := by omega
  have hneq : ¬ (pyStrip np ≠ pyStrip cp) := not_not_intro hpeq
  unfold reset_password
  split
  · rename_i hf
    have hnone : ∀ rt ∈ s.tokens, ¬ (rt.token = tv ∧ rt.used = false ∧ now < rt.expires_at) := by
      intro rt hrt hcon
      have hp := List.find?_eq_none.mp hf rt hrt
      simp [hcon.1] at hp
    refine ⟨?_, fun _ => rfl, ?_⟩
    · constructor
      · intro h
        simp at h
      · rintro ⟨rt, hrt, hcon⟩
        exact absurd hcon (hnone rt hrt)
    · intro h
      simp at h
  · rename_i rt hf
    have hmem := List.mem_of_find?_eq_some hf
    have htok : rt.token = tv := by simpa using List.find?_some hf
    split
    · rename_i hinv
      have hval : ¬ (rt.used = false ∧ now < rt.expires_at) := by
        rintro ⟨hu1, hu2⟩
        exact hinv (by simp [PasswordResetToken.is_valid, hu1, hu2])
      have hnone : ∀ rt2 ∈ s.tokens, ¬ (rt2.token = tv ∧ rt2.used = false ∧ now < rt2.expires_at) := by
        rintro rt2 hrt2 ⟨ht2, hrest⟩
        have he : rt2 = rt :=
          List.inj_on_of_nodup_map hnodup hrt2 hmem (by rw [ht2, htok])
        exact hval (he ▸ hrest)
      refine ⟨?_, fun _ => rfl, ?_⟩
      · constructor
        · intro h
          simp at h
        · rintro ⟨rt2, hrt2, hcon⟩
          exact absurd hcon (hnone rt2 hrt2)
      · intro h
        simp at h
    · rename_i hvalid
      have hv : rt.is_valid now = true := not_not.mp hvalid
      have hvp : rt.used = false ∧ now < rt.expires_at := by
        simpa [PasswordResetToken.is_valid] using hv
      split
      · rename_i hu
        exfalso
        obtain ⟨u, hu1, hu2⟩ := huser rt hmem
        have hp := List.find?_eq_none.mp hu u hu1
        simp [hu2] at hp
      · rename_i user hu
        refine ⟨?_, ?_, ?_⟩
        · exact ⟨fun _ => ⟨rt, hmem, htok, hvp⟩, fun _ => rfl⟩
        · intro hnex
          exact absurd ⟨rt, hmem, htok, hvp⟩ hnex
        · intro _ now2 np2 cp2
          have hpres : ∀ t : PasswordResetToken,
              ((fun t => if (t.id == rt.id) = true then { t with used := true } else t) t).token =
                t.token := by
            intro t
            by_cases h : (t.id == rt.id) = true
            · simp [h]
            · simp [h]
          apply reset_password_invalid_of_find_used _ _ _ _ _
            ({ rt with used := true }) _ rfl
          show (s.tokens.map fun t =>
              if (t.id == rt.id) = true then { t with used := true } else t).find?
                (fun t2 => t2.token == tv) = some { rt with used := true }
          rw [find?_map_token_eq _ _ _ hpres, hf]
          simp

/-- C5, witness: concrete redemption of the sample token at time 50,
which is before its expiry at 100. -/
theorem redeem_iff_witness :
    (sampleState.tokens.map PasswordResetToken.token).Nodup ∧
    (∀ t ∈ sampleState.tokens, ∃ u ∈ sampleState.users, u.id = t.user_id) ∧
    (pyStrip "newpass99" ≠ "" ∧ pyStrip "newpass99" = pyStrip "newpass99" ∧
      6 ≤ (pyStrip "newpass99").length) ∧
    (((reset_password sampleState "tok123" 50 "newpass99" "newpass99").1 = ResetOutcome.success ↔
      ∃ rt ∈ sampleState.tokens, rt.token = "tok123" ∧ rt.used = false ∧ 50 < rt.expires_at) ∧
    ((¬ ∃ rt ∈ sampleState.tokens, rt.token = "tok123" ∧ rt.used = false ∧ 50 < rt.expires_at) →
      (reset_password sampleState "tok123" 50 "newpass99" "newpass99").1 = ResetOutcome.invalidToken) ∧
    ((reset_password sampleState "tok123" 50 "newpass99" "newpass99").1 = ResetOutcome.success →
      ∀ now2 np2 cp2,
        (reset_password (reset_password sampleState "tok123" 50 "newpass99" "newpass99").2
            "tok123" now2 np2 cp2).1 = ResetOutcome.invalidToken)) :=
  ⟨by decide, by decide, by decide,
    redeem_iff_valid_and_at_most_once sampleState "tok123" 50 "newpass99" "newpass99"
      (by decide) (by decide) (by decide)⟩

/-- C6: issuing a reset token for an account marks, in the same
transition that inserts the new token, every other token of that account
as used; consequently a token the account held before the issue can no
longer be redeemed. -/
theorem issue_invalidates_prior_tokens
    (s : AppState) (user : User) (tv : String) (nid now : Nat)
    (hnodup : (s.tokens.map PasswordResetToken.token).Nodup)
    (told : PasswordResetToken) (hmem : told ∈ s.tokens) (howner : told.user_id = user.id) :
    (∀ t2 ∈ (generate_password_reset_token s user tv nid now).2.tokens,
        t2.user_id = user.id → t2.token ≠ tv → t2.used = true) ∧
    (∀ now2 np cp,
      (reset_password (generate_password_reset_token s user tv nid now).2 told.token now2 np cp).1 =
        ResetOutcome.invalidToken) := by
  constructor
  · intro t2 ht2 hown htok
    rcases List.mem_append.mp ht2 with hin | hnew
    · rcases List.mem_map.mp hin with ⟨t0, ht0, rfl⟩
      by_cases hg : (t0.user_id == user.id && !t0.used) = true
      · rw [if_pos hg]
      · rw [if_neg hg] at hown htok ⊢
        simp only [Bool.and_eq_true, beq_iff_eq, Bool.not_eq_true'] at hg
        rcases Bool.eq_false_or_eq_true t0.used with h | h
        · exact h
        · exact absurd ⟨hown, h⟩ hg
    · have ht : t2 = { id := nid, user_id := user.id, token := tv,
                       expires_at := now + 3600, used := false } := by
        simpa using hnew
      rw [ht] at htok
      exact absurd rfl htok
  · intro now2 np cp
    have hpres : ∀ t : PasswordResetToken,
        ((fun t => if (t.user_id == user.id && !t.used) = true then { t with used := true } else t) t).token =
          t.token := by
      intro t
      by_cases h : (t.user_id == user.id && !t.used) = true
      · simp [h]
      · simp [h]
    have hfind : ((generate_password_reset_token s user tv nid now).2).tokens.find?
        (fun t => t.token == told.token) =
        some (if (told.user_id == user.id && !told.used) = true then
          { told with used := true } else told) := by
      show ((s.tokens.map (fun t : PasswordResetToken =>
          if (t.user_id == user.id && !t.used) = true then { t with used := true } else t)) ++
          [({ id := nid, user_id := user.id, token := tv,
              expires_at := now + 3600, used := false } : PasswordResetToken)]).find?
            (fun t : PasswordResetToken => t.token == told.token) = _
      rw [List.find?_append, find?_map_token_eq _ _ _ hpres,
        find?_token_self s.tokens hnodup told hmem]
      rfl
    have hused : (if (told.user_id == user.id && !told.used) = true then
        { told with used := true } else told).used = true := by
      rcases Bool.eq_false_or_eq_true told.used with h | h
      · have hg : ¬ ((told.user_id == user.id && !told.used) = true) := by simp [h]
        rw [if_neg hg]
        exact h
      · have hg : (told.user_id == user.id && !told.used) = true := by simp [howner, h]
        rw [if_pos hg]
    exact reset_password_invalid_of_find_used _ told.token now2 np cp _ hfind hused

/-- C6, witness: issuing a fresh token for the sample account makes the
previously issued sample token unredeemable. -/
theorem issue_invalidates_witness :
    (sampleState.tokens.map PasswordResetToken.token).Nodup ∧
    aliceToken ∈ sampleState.tokens ∧
    aliceToken.user_id = aliceUser.id ∧
    ((∀ t2 ∈ (generate_password_reset_token sampleState aliceUser "tok456" 2 60).2.tokens,
        t2.user_id = aliceUser.id → t2.token ≠ "tok456" → t2.used = true) ∧
    (∀ now2 np cp,
      (reset_password (generate_password_reset_token sampleState aliceUser "tok456" 2 60).2
          aliceToken.token now2 np cp).1 = ResetOutcome.invalidToken)) :=
  ⟨by decide, by decide, by decide,
    issue_invalidates_prior_tokens sampleState aliceUser "tok456" 2 60
      (by decide) aliceToken (by decide) (by decide)⟩

end IncidentApp
